import Mathlib

/-!
Shallow embedding of the VirtualDoc backend's AI route handlers
(`src/routes/ai.py`) and verification of the specification's claims
about them.

Conventions of the embedding:
* JSON numeric vitals are modelled as rationals (`ℚ`); a field that may
  be missing from the request body is an `Option ℚ`, and Python's
  `dict.get(key, default)` becomes `Option.getD`.
* Python strings are Lean `String`s; `str.lower()` is `String.toLower`
  and the `in` substring test is `strContains` below.
* Each Flask handler becomes a pure function of its request data plus
  explicit parameters for the ambient configuration
  (`USE_REAL_SERVICES`, whether the provider client/key is present),
  the outcome of the real provider call, and the values the handler
  draws from `random` (choice index, uniform confidence, url id).
* `random.choice(xs)` is modelled as `choiceIdx xs i` for an arbitrary
  index `i : ℕ` supplied by the environment.
-/

namespace VirtualDoc

/-- Substring containment on character lists: `containsSub n h` is true
iff `n` occurs contiguously inside `h`. -/
def containsSub (n : List Char) : List Char → Bool
  | [] => n.isEmpty
  | c :: rest => n.isPrefixOf (c :: rest) || containsSub n rest

/-- Python's `str.lower()`: lower-case every character (stated on the
character list of the string, extensionally `String.toLower`). -/
def strLower (s : String) : String := ⟨s.data.map Char.toLower⟩

/-- Python's `needle in hay` substring test for strings. -/
def strContains (hay needle : String) : Bool :=
  containsSub needle.data hay.data

/-- Python's `random.choice` on a nonempty list, with the random draw
replaced by an explicit index parameter `i`. -/
def choiceIdx (xs : List String) (i : ℕ) : String :=
  xs.getD (i % xs.length) ""

/-- The `MOCK_CLAUDE_RESPONSES['patient_chat']` canned strings
(`src/routes/ai.py` lines 39-43). -/
def MOCK_patient_chat : List String :=
  ["I understand your concern. Based on what you've described, it's important to monitor your symptoms. If they persist or worsen, please consider consulting with a healthcare professional.",
   "Thank you for sharing this information. While I can provide general guidance, it's always best to speak with a doctor for personalized medical advice.",
   "Your symptoms could be related to several factors. I recommend keeping track of when they occur and any potential triggers. If you're concerned, please reach out to a healthcare provider."]

/-- The `MOCK_CLAUDE_RESPONSES['vitals_analysis']` canned strings
(`src/routes/ai.py` lines 44-48). -/
def MOCK_vitals_analysis : List String :=
  ["Based on the vitals provided, the readings appear to be within normal ranges. Continue monitoring and maintain healthy lifestyle habits.",
   "The blood pressure reading is slightly elevated. Consider lifestyle modifications and follow up with a healthcare provider if this persists.",
   "The oxygen saturation level is concerning. Immediate medical attention may be required. Please escalate this case."]

/-- The `MOCK_CLAUDE_RESPONSES['case_summary']` canned strings
(`src/routes/ai.py` lines 49-53). -/
def MOCK_case_summary : List String :=
  ["Patient presents with respiratory symptoms including cough and shortness of breath. Vital signs show elevated heart rate. Recommend chest X-ray and further evaluation.",
   "Chief complaint involves gastrointestinal symptoms. Patient reports nausea and abdominal pain. Vitals stable. Consider dietary factors and stress levels.",
   "Patient experiencing headache and dizziness. Blood pressure readings are elevated. Recommend neurological assessment and blood pressure monitoring."]

/-- The `vitals` object of an `/analyze-vitals` request body; every
field may be absent (`none`). -/
structure Vitals where
  bp_systolic : Option ℚ
  bp_diastolic : Option ℚ
  heart_rate : Option ℚ
  oxygen_saturation : Option ℚ
  temperature : Option ℚ
deriving DecidableEq

/-- A risk assessment as produced by `/analyze-vitals`: the
`risk_level` and `urgency` response fields (strings, as in the code). -/
structure RiskAssessment where
  risk_level : String
  urgency : String
deriving DecidableEq

/-- The rule-based risk-assessment block of `analyze_vitals`
(`src/routes/ai.py` lines 127-157): defaults
120/80/70/98/98.6 for missing fields, then two sequential `if`s, the
second overwriting the first. -/
def classify_vitals (v : Vitals) : RiskAssessment :=
  let bp_systolic := v.bp_systolic.getD 120
  let bp_diastolic := v.bp_diastolic.getD 80
  let heart_rate := v.heart_rate.getD 70
  let oxygen_saturation := v.oxygen_saturation.getD 98
  let temperature := v.temperature.getD (493/5)
  let p0 : RiskAssessment := ⟨"low", "routine"⟩
  let p1 : RiskAssessment :=
    if bp_systolic > 140 ∨ bp_diastolic > 90 then ⟨"medium", "elevated"⟩
    else p0
  if oxygen_saturation < 95 ∨ heart_rate > 100 ∨ temperature > 101 then ⟨"high", "urgent"⟩
  else p1

/-- The `vitals` object of an `/emergency-triage` request body; the
rule-based triage only reads these three keys, each possibly absent. -/
structure TriageVitals where
  oxygen_saturation : Option ℚ
  heart_rate : Option ℚ
  bp_systolic : Option ℚ
deriving DecidableEq

/-- A triage assessment: the `triage_level` and `call_emergency`
response fields of `/emergency-triage`. -/
structure TriageAssessment where
  triage_level : String
  call_emergency : Bool
deriving DecidableEq

/-- `emergency_keywords` of `emergency_triage` (`src/routes/ai.py`
line 514). -/
def emergency_keywords : List String :=
  ["chest pain", "difficulty breathing", "unconscious", "severe bleeding", "stroke"]

/-- `urgent_keywords` of `emergency_triage` (`src/routes/ai.py`
line 515). -/
def urgent_keywords : List String :=
  ["severe pain", "high fever", "vomiting blood", "severe headache"]

/-- The rule-based triage block of `emergency_triage`
(`src/routes/ai.py` lines 509-539).  `vitals = none` models a request
whose `vitals` dict is absent or empty (falsy, so the
`if vitals:` block is skipped); `some tv` models a non-empty dict.
The Python `for`/`break` loops set a constant on the first match, so
they are embedded as `List.any`; the urgent loop only runs when the
level is not already `IMMEDIATE`. -/
def classify_triage (symptoms : String) (vitals : Option TriageVitals) : TriageAssessment :=
  let symptoms_lower := strLower symptoms
  let p1 : String × Bool :=
    if emergency_keywords.any (fun k => strContains symptoms_lower k) then ("IMMEDIATE", true)
    else ("NON-URGENT", false)
  let triage_level :=
    if p1.1 ≠ "IMMEDIATE" ∧ urgent_keywords.any (fun k => strContains symptoms_lower k) then "URGENT"
    else p1.1
  let call_emergency := p1.2
  match vitals with
  | none => ⟨triage_level, call_emergency⟩
  | some v =>
    let oxygen_sat := v.oxygen_saturation.getD 100
    let heart_rate := v.heart_rate.getD 70
    let bp_systolic := v.bp_systolic.getD 120
    if oxygen_sat < 90 ∨ heart_rate > 120 ∨ bp_systolic > 180 then ⟨"IMMEDIATE", true⟩
    else ⟨triage_level, call_emergency⟩

/-- Outcome of one real-provider call as seen by a handler: either the
provider was not invoked at all, or it was invoked and returned
`success=False` (the service classes catch network/SDK exceptions and
non-2xx responses and return a failure dict, `src/services/ai_services.py`),
or it succeeded with a payload. -/
inductive ProviderOutcome where
  | failed
  | ok (payload : String)
deriving DecidableEq

/-- The `/chat` response fields the claims are about
(`patient_chat`, `src/routes/ai.py` lines 56-113). -/
structure ChatResponse where
  success : Bool
  response : String
  confidence : ℚ
  requires_escalation : Bool
  suggested_actions : List String
  service_used : String
deriving DecidableEq

/-- The `patient_chat` handler (`src/routes/ai.py` lines 56-113).
`useReal` is `USE_REAL_SERVICES`, `configured` is
`claude_service.bedrock_client` being non-null, `claude` the outcome of
`claude_service.generate_response`, `mockIdx` the `random.choice` draw
and `mockConf` the `random.uniform(0.7, 0.85)` draw of the pure-mock
branch. -/
def patient_chat (useReal configured : Bool) (claude : ProviderOutcome)
    (mockIdx : ℕ) (mockConf : ℚ) : ChatResponse :=
  let rc : String × ℚ :=
    if useReal ∧ configured then
      match claude with
      | .ok payload => (payload, 9/10)
      | .failed => (choiceIdx MOCK_patient_chat mockIdx, 7/10)
    else (choiceIdx MOCK_patient_chat mockIdx, mockConf)
  let confidence := rc.2
  { success := true
    response := rc.1
    confidence := confidence
    requires_escalation := decide (confidence < 4/5)
    suggested_actions :=
      if confidence > 4/5 then
        ["Monitor symptoms", "Stay hydrated", "Rest as needed"]
      else
        ["Consult healthcare provider", "Monitor closely", "Seek immediate care if symptoms worsen"]
    service_used := if useReal ∧ configured then "claude" else "mock" }

/-- The `/analyze-vitals` response fields the claims are about
(`analyze_vitals`, `src/routes/ai.py` lines 115-189). -/
structure VitalsResponse where
  success : Bool
  analysis : String
  risk_level : String
  urgency : String
  service_used : String
deriving DecidableEq

/-- The `analyze_vitals` handler (`src/routes/ai.py` lines 115-189);
its rule-based risk block is `classify_vitals`. -/
def analyze_vitals (useReal configured : Bool) (claude : ProviderOutcome)
    (vitals : Vitals) (mockIdx : ℕ) : VitalsResponse :=
  let response_text :=
    if useReal ∧ configured then
      match claude with
      | .ok payload => payload
      | .failed => choiceIdx MOCK_vitals_analysis mockIdx
    else choiceIdx MOCK_vitals_analysis mockIdx
  let risk := classify_vitals vitals
  { success := true
    analysis := response_text
    risk_level := risk.risk_level
    urgency := risk.urgency
    service_used := if useReal ∧ configured then "claude" else "mock" }

/-- The `/summarize-case` response fields the claims are about
(`summarize_case`, `src/routes/ai.py` lines 191-249). -/
structure SummaryResponse where
  success : Bool
  summary : String
  service_used : String
deriving DecidableEq

/-- The `summarize_case` handler (`src/routes/ai.py` lines 191-249). -/
def summarize_case (useReal configured : Bool) (claude : ProviderOutcome)
    (mockIdx : ℕ) : SummaryResponse :=
  let response_text :=
    if useReal ∧ configured then
      match claude with
      | .ok payload => payload
      | .failed => choiceIdx MOCK_case_summary mockIdx
    else choiceIdx MOCK_case_summary mockIdx
  { success := true
    summary := response_text
    service_used := if useReal ∧ configured then "claude" else "mock" }

/-- The `/generate-tts` response fields the claims are about
(`generate_tts`, `src/routes/ai.py` lines 251-308). -/
structure TtsResponse where
  success : Bool
  audio_url : String
  duration : ℚ
  voice_id : String
  text_length : ℕ
  service_used : String
deriving DecidableEq

/-- The `generate_tts` handler (`src/routes/ai.py` lines 251-308).
`hasKey` is `elevenlabs_service.api_key` being set, `ttsOk` whether
`generate_speech` returned `success=True`, `urlId` the
`random.randint(1000, 9999)` draw of the branch taken. -/
def generate_tts (useReal hasKey ttsOk : Bool) (text voice_id : String)
    (urlId : ℕ) : TtsResponse :=
  if useReal ∧ hasKey then
    if ttsOk then
      { success := true
        audio_url := "https://your-storage.com/audio/" ++ toString urlId ++ ".mp3"
        duration := (text.length : ℚ) * (1/10)
        voice_id := voice_id
        text_length := text.length
        service_used := "elevenlabs" }
    else
      { success := true
        audio_url := "https://mock-audio-service.com/audio/" ++ toString urlId ++ ".mp3"
        duration := (text.length : ℚ) * (1/10)
        voice_id := voice_id
        text_length := text.length
        service_used := "mock" }
  else
    { success := true
      audio_url := "https://mock-audio-service.com/audio/" ++ toString urlId ++ ".mp3"
      duration := (text.length : ℚ) * (1/10)
      voice_id := voice_id
      text_length := text.length
      service_used := "mock" }

/-- The `/create-video-summary` response fields the claims are about
(`create_video_summary`, `src/routes/ai.py` lines 310-387). -/
structure VideoResponse where
  success : Bool
  video_url : String
  script : String
  duration : ℚ
  service_used : String
deriving DecidableEq

/-- The `create_video_summary` handler (`src/routes/ai.py`
lines 310-387).  `claude` is the script-generation outcome,
`tavusConfigured`/`tavusOk` the Tavus key presence and call outcome,
`tavusUrl` the `download_url` a successful Tavus call returns, and
`urlId` the `random.randint` draw of the mock branch. -/
def create_video_summary (useReal claudeConfigured : Bool) (claude : ProviderOutcome)
    (tavusConfigured tavusOk : Bool) (tavusUrl : String)
    (diagnosis treatment_plan patient_name doctor_name : String)
    (urlId : ℕ) : VideoResponse :=
  let mockScript := "Hello " ++ patient_name ++ ", this is a summary of your consultation with "
    ++ doctor_name ++ ". " ++ diagnosis ++ " " ++ treatment_plan
  let script :=
    if useReal ∧ claudeConfigured then
      match claude with
      | .ok payload => payload
      | .failed => mockScript
    else mockScript
  if useReal ∧ tavusConfigured then
    if tavusOk then
      { success := true
        video_url := tavusUrl
        script := script
        duration := 60
        service_used := "tavus" }
    else
      { success := true
        video_url := "https://mock-video-service.com/video/" ++ toString urlId ++ ".mp4"
        script := script
        duration := 60
        service_used := "mock" }
  else
    { success := true
      video_url := "https://mock-video-service.com/video/" ++ toString urlId ++ ".mp4"
      script := script
      duration := 60
      service_used := "mock" }

/-- The `/analyze-image` response fields the claims are about
(`analyze_image`, `src/routes/ai.py` lines 389-483). -/
structure ImageResponse where
  success : Bool
  findings : List String
  service_used : String
deriving DecidableEq

/-- The `analyze_image` handler (`src/routes/ai.py` lines 389-483).
`configured` is `rekognition_service.rekognition_client` being
non-null, `hasImageData` whether the request carried base64
`image_data`, `rekOk` the Rekognition call outcome and `realFindings`
the labels it produced. -/
def analyze_image (useReal configured hasImageData rekOk : Bool)
    (realFindings : List String) (analysis_type : String) : ImageResponse :=
  if useReal ∧ configured ∧ hasImageData then
    if rekOk then
      { success := true
        findings := realFindings
        service_used := "rekognition" }
    else
      { success := true
        findings := ["Image quality adequate for analysis", "No obvious abnormalities detected"]
        service_used := "mock" }
  else
    let mock_findings :=
      if analysis_type = "skin" then
        ["Skin lesion appears benign", "Regular monitoring recommended",
         "Consider dermatology consultation if changes occur"]
      else if analysis_type = "wound" then
        ["Wound healing appears normal", "No signs of infection visible",
         "Continue current treatment plan"]
      else
        ["Image quality is adequate for analysis", "No obvious abnormalities detected",
         "Recommend clinical correlation"]
    { success := true
      findings := mock_findings
      service_used := "mock" }

/-- The `/emergency-triage` response fields the claims are about
(`emergency_triage`, `src/routes/ai.py` lines 485-563). -/
structure TriageResponse where
  success : Bool
  triage_level : String
  call_emergency : Bool
  analysis : String
  service_used : String
deriving DecidableEq

/-- The `emergency_triage` handler (`src/routes/ai.py` lines 485-563);
its rule-based block is `classify_triage`, which always runs and
produces the `triage_level`/`call_emergency` fields whatever the
narrative `analysis` text came from. -/
def emergency_triage (useReal configured : Bool) (claude : ProviderOutcome)
    (symptoms : String) (vitals : Option TriageVitals) : TriageResponse :=
  let triage_analysis :=
    if useReal ∧ configured then
      match claude with
      | .ok payload => payload
      | .failed => "Unable to complete AI analysis. Using rule-based assessment."
    else "Rule-based triage assessment completed."
  let t := classify_triage symptoms vitals
  { success := true
    triage_level := t.triage_level
    call_emergency := t.call_emergency
    analysis := triage_analysis
    service_used := if useReal ∧ configured then "claude" else "rule-based" }

/-! ## Theorems about the claims -/

/-- C4: whenever the (defaulted) oxygen saturation is below 95, the heart
rate above 100 or the temperature above 101, `classify_vitals` returns
`risk_level = high` and `urgency = urgent`, regardless of the
blood-pressure values: the high-severity check runs after the
blood-pressure check and overwrites its result. -/
theorem vitals_high_overrides (v : Vitals)
    (h : v.oxygen_saturation.getD 98 < 95 ∨ v.heart_rate.getD 70 > 100 ∨
      v.temperature.getD (493/5) > 101) :
    classify_vitals v = ⟨"high", "urgent"⟩ := by
  simp only [classify_vitals]
  rw [if_pos h]

/-- Witness for `vitals_high_overrides`: oxygen saturation 90 with high
blood pressure still classifies as high/urgent. -/
theorem vitals_high_overrides_witness :
    classify_vitals ⟨some 150, some 95, some 70, some 90, some 99⟩ = ⟨"high", "urgent"⟩ :=
  vitals_high_overrides ⟨some 150, some 95, some 70, some 90, some 99⟩ (Or.inl (by decide))

/-- C5: when blood pressure exceeds its threshold but the high-severity
condition does not hold, `classify_vitals` returns exactly
medium/elevated; when neither condition holds it returns low/routine,
and in particular it does so on the all-defaults sample
(120/80, heart rate 70, oxygen 98, temperature 98.6). -/
theorem vitals_medium_and_default (v : Vitals) :
    ((v.bp_systolic.getD 120 > 140 ∨ v.bp_diastolic.getD 80 > 90) →
      ¬(v.oxygen_saturation.getD 98 < 95 ∨ v.heart_rate.getD 70 > 100 ∨
        v.temperature.getD (493/5) > 101) →
      classify_vitals v = ⟨"medium", "elevated"⟩) ∧
    (¬(v.bp_systolic.getD 120 > 140 ∨ v.bp_diastolic.getD 80 > 90) →
      ¬(v.oxygen_saturation.getD 98 < 95 ∨ v.heart_rate.getD 70 > 100 ∨
        v.temperature.getD (493/5) > 101) →
      classify_vitals v = ⟨"low", "routine"⟩) ∧
    classify_vitals ⟨none, none, none, none, none⟩ = ⟨"low", "routine"⟩ := by
  refine ⟨?_, ?_, ?_⟩
  · intro hbp hhigh
    simp only [classify_vitals]
    rw [if_neg hhigh, if_pos hbp]
  · intro hbp hhigh
    simp only [classify_vitals]
    rw [if_neg hhigh, if_neg hbp]
  · norm_num [classify_vitals]

/-- Witness for `vitals_medium_and_default`: systolic 150 with otherwise
explicit normal vitals is medium/elevated; the explicit normal sample is
low/routine. -/
theorem vitals_medium_and_default_witness :
    classify_vitals ⟨some 150, some 80, some 70, some 98, some 99⟩ = ⟨"medium", "elevated"⟩ ∧
    classify_vitals ⟨some 120, some 80, some 70, some 98, some 99⟩ = ⟨"low", "routine"⟩ :=
  ⟨(vitals_medium_and_default ⟨some 150, some 80, some 70, some 98, some 99⟩).1
      (by decide) (by decide),
   (vitals_medium_and_default ⟨some 120, some 80, some 70, some 98, some 99⟩).2.1
      (by decide) (by decide)⟩

/-- C2: whenever a (non-empty) vitals record is present on a triage
request and its defaulted oxygen saturation is below 90, heart rate
above 120 or systolic pressure above 180, `classify_triage` yields
`IMMEDIATE` with `call_emergency = true`, whatever the symptom keywords
said: the vitals override runs after the keyword checks. -/
theorem triage_vitals_override (symptoms : String) (tv : TriageVitals)
    (h : tv.oxygen_saturation.getD 100 < 90 ∨ tv.heart_rate.getD 70 > 120 ∨
      tv.bp_systolic.getD 120 > 180) :
    classify_triage symptoms (some tv) = ⟨"IMMEDIATE", true⟩ := by
  simp only [classify_triage]
  rw [if_pos h]

/-- Witness for `triage_vitals_override`: oxygen saturation 85 with no
matching keyword forces IMMEDIATE. -/
theorem triage_vitals_override_witness :
    classify_triage "feeling dizzy" (some ⟨some 85, none, none⟩) = ⟨"IMMEDIATE", true⟩ :=
  triage_vitals_override "feeling dizzy" ⟨some 85, none, none⟩ (Or.inl (by decide))

/-- C3: a symptoms string whose lower-cased form contains an emergency
keyword classifies as IMMEDIATE with `call_emergency = true` for any
vitals (urgent keywords may also match); a string matching only an
urgent keyword, with no vitals, classifies as URGENT with
`call_emergency = false`. -/
theorem triage_keyword_rules (symptoms : String) (vitals : Option TriageVitals) :
    (emergency_keywords.any (fun k => strContains (strLower symptoms) k) = true →
      classify_triage symptoms vitals = ⟨"IMMEDIATE", true⟩) ∧
    (emergency_keywords.any (fun k => strContains (strLower symptoms) k) = false →
      urgent_keywords.any (fun k => strContains (strLower symptoms) k) = true →
      classify_triage symptoms none = ⟨"URGENT", false⟩) := by
  constructor
  · intro hem
    cases vitals with
    | none => simp [classify_triage, hem]
    | some v =>
      simp only [classify_triage, hem]
      simp
  · intro hem hurg
    simp [classify_triage, hem, hurg]

/-- Witness for `triage_keyword_rules`: "Chest Pain and severe pain"
matches an emergency keyword (and an urgent one) and is IMMEDIATE;
"severe headache" matches only an urgent keyword and is URGENT without
an emergency call. -/
theorem triage_keyword_rules_witness :
    classify_triage "Chest Pain and severe pain" none = ⟨"IMMEDIATE", true⟩ ∧
    classify_triage "severe headache" none = ⟨"URGENT", false⟩ :=
  ⟨(triage_keyword_rules "Chest Pain and severe pain" none).1 (by decide),
   (triage_keyword_rules "severe headache" none).2 (by decide) (by decide)⟩

/-- Every triage result is one of the three shapes the rule-based logic
can produce. -/
theorem classify_triage_shape (symptoms : String) (vitals : Option TriageVitals) :
    classify_triage symptoms vitals = ⟨"IMMEDIATE", true⟩ ∨
    classify_triage symptoms vitals = ⟨"URGENT", false⟩ ∨
    classify_triage symptoms vitals = ⟨"NON-URGENT", false⟩ := by
  by_cases hem : emergency_keywords.any (fun k => strContains (strLower symptoms) k) = true
  · cases vitals with
    | none => exact Or.inl (by simp [classify_triage, hem])
    | some v =>
      refine Or.inl ?_
      simp only [classify_triage, hem]
      simp
  · rw [Bool.not_eq_true] at hem
    rcases Bool.eq_false_or_eq_true
        (urgent_keywords.any (fun k => strContains (strLower symptoms) k)) with hurg | hurg
    · cases vitals with
      | none => exact Or.inr (Or.inl (by simp [classify_triage, hem, hurg]))
      | some v =>
        by_cases hv : v.oxygen_saturation.getD 100 < 90 ∨ v.heart_rate.getD 70 > 120 ∨
            v.bp_systolic.getD 120 > 180
        · refine Or.inl ?_
          simp only [classify_triage]
          rw [if_pos hv]
        · refine Or.inr (Or.inl ?_)
          simp only [classify_triage, hem, hurg]
          simp
          push_neg at hv
          exact hv
    · cases vitals with
      | none => exact Or.inr (Or.inr (by simp [classify_triage, hem, hurg]))
      | some v =>
        by_cases hv : v.oxygen_saturation.getD 100 < 90 ∨ v.heart_rate.getD 70 > 120 ∨
            v.bp_systolic.getD 120 > 180
        · refine Or.inl ?_
          simp only [classify_triage]
          rw [if_pos hv]
        · refine Or.inr (Or.inr ?_)
          simp only [classify_triage, hem, hurg]
          simp
          push_neg at hv
          exact hv

/-- C6: for every triage request — any configuration, provider outcome,
symptoms string and vitals record — the `/emergency-triage` response has
`call_emergency = true` exactly when `triage_level = "IMMEDIATE"`. -/
theorem triage_call_emergency_iff (useReal configured : Bool) (claude : ProviderOutcome)
    (symptoms : String) (vitals : Option TriageVitals) :
    (emergency_triage useReal configured claude symptoms vitals).call_emergency = true ↔
    (emergency_triage useReal configured claude symptoms vitals).triage_level = "IMMEDIATE" := by
  have hc : (emergency_triage useReal configured claude symptoms vitals).call_emergency
      = (classify_triage symptoms vitals).call_emergency := rfl
  have ht : (emergency_triage useReal configured claude symptoms vitals).triage_level
      = (classify_triage symptoms vitals).triage_level := rfl
  rw [hc, ht]
  rcases classify_triage_shape symptoms vitals with h | h | h <;> rw [h] <;> simp

/-- C9: in the triage vitals override, a missing `oxygen_saturation`,
`heart_rate` or `bp_systolic` key behaves exactly like the explicit
defaults 100, 70 and 120 respectively (note the oxygen default is 100
here, not the 98 of `/analyze-vitals`), so a missing field never
triggers the override; and a non-empty vitals record carrying none of
the three keys triages identically to an absent/empty record, whose
override block is skipped entirely. -/
theorem triage_vitals_defaults (s : String) (ox hr bp : Option ℚ) :
    classify_triage s (some ⟨none, hr, bp⟩) = classify_triage s (some ⟨some 100, hr, bp⟩) ∧
    classify_triage s (some ⟨ox, none, bp⟩) = classify_triage s (some ⟨ox, some 70, bp⟩) ∧
    classify_triage s (some ⟨ox, hr, none⟩) = classify_triage s (some ⟨ox, hr, some 120⟩) ∧
    classify_triage s (some ⟨none, none, none⟩) = classify_triage s none := by
  refine ⟨rfl, rfl, rfl, ?_⟩
  have hcond : ¬((100 : ℚ) < 90 ∨ (70 : ℚ) > 120 ∨ (120 : ℚ) > 180) := by decide
  simp only [classify_triage, Option.getD_none, Option.getD_some]
  rw [if_neg hcond]

/-- A `random.choice` draw always lands in the list it draws from. -/
theorem choiceIdx_mem (xs : List String) (hx : xs ≠ []) (i : ℕ) : choiceIdx xs i ∈ xs := by
  unfold choiceIdx
  have hlen : 0 < xs.length := List.length_pos.mpr hx
  have h : i % xs.length < xs.length := Nat.mod_lt _ hlen
  rw [List.getD_eq_getElem _ _ h]
  exact List.getElem_mem h

/-- C1 fails on the code: a `/chat` request for which the configured
real provider call failed — so the canned mock response was substituted
(`response` is the `random.choice` pick from `MOCK_CLAUDE_RESPONSES`)
— still reports `service_used = "claude"`, not `"mock"`. -/
theorem chat_fallback_reports_claude :
    (patient_chat true true .failed 0 (3/4)).response = choiceIdx MOCK_patient_chat 0 ∧
    (patient_chat true true .failed 0 (3/4)).service_used = "claude" ∧
    (patient_chat true true .failed 0 (3/4)).service_used ≠ "mock" :=
  ⟨rfl, rfl, by decide⟩

/-- C1 as amended: after a failed real call with a mock payload
substituted, only `/generate-tts`, `/create-video-summary` and
`/analyze-image` report `service_used = "mock"`; `/chat`,
`/analyze-vitals` and `/summarize-case` compute `service_used` from the
configuration alone and still report `"claude"`, and `/emergency-triage`
also reports `"claude"` (its non-real path says `"rule-based"`, never
`"mock"`).  Each claude-branch conjunct also exhibits the substituted
mock payload. -/
theorem service_used_on_fallback (mockIdx : ℕ) (mockConf : ℚ) (v : Vitals)
    (symptoms : String) (vitals : Option TriageVitals) (text voice_id : String) (urlId : ℕ)
    (cc : Bool) (claude : ProviderOutcome) (tavusUrl d tp pn dn : String) (urlId2 : ℕ)
    (realFindings : List String) (analysis_type : String) :
    ((patient_chat true true .failed mockIdx mockConf).response
        = choiceIdx MOCK_patient_chat mockIdx ∧
      (patient_chat true true .failed mockIdx mockConf).service_used = "claude") ∧
    ((analyze_vitals true true .failed v mockIdx).analysis
        = choiceIdx MOCK_vitals_analysis mockIdx ∧
      (analyze_vitals true true .failed v mockIdx).service_used = "claude") ∧
    ((summarize_case true true .failed mockIdx).summary
        = choiceIdx MOCK_case_summary mockIdx ∧
      (summarize_case true true .failed mockIdx).service_used = "claude") ∧
    ((emergency_triage true true .failed symptoms vitals).analysis
        = "Unable to complete AI analysis. Using rule-based assessment." ∧
      (emergency_triage true true .failed symptoms vitals).service_used = "claude") ∧
    (generate_tts true true false text voice_id urlId).service_used = "mock" ∧
    (create_video_summary true cc claude true false tavusUrl d tp pn dn urlId2).service_used
      = "mock" ∧
    (analyze_image true true true false realFindings analysis_type).service_used = "mock" :=
  ⟨⟨rfl, rfl⟩, ⟨rfl, rfl⟩, ⟨rfl, rfl⟩, ⟨rfl, rfl⟩, rfl, rfl, rfl⟩

/-- C7: when the real provider is configured but its call fails (the
service classes catch exceptions and non-2xx responses and return
`success=False`, which the handler absorbs), the handler still
completes normally: `success = true`, with a mock-origin payload
substituted — for `/chat` the canned mock text at mock confidence 0.7,
for `/generate-tts` the mock audio url. -/
theorem provider_failure_absorbed (mockIdx : ℕ) (mockConf : ℚ)
    (text voice_id : String) (urlId : ℕ) :
    (patient_chat true true .failed mockIdx mockConf).success = true ∧
    (patient_chat true true .failed mockIdx mockConf).response ∈ MOCK_patient_chat ∧
    (patient_chat true true .failed mockIdx mockConf).confidence = 7/10 ∧
    (generate_tts true true false text voice_id urlId).success = true ∧
    (generate_tts true true false text voice_id urlId).audio_url
      = "https://mock-audio-service.com/audio/" ++ toString urlId ++ ".mp3" := by
  refine ⟨rfl, ?_, rfl, rfl, rfl⟩
  have h : (patient_chat true true .failed mockIdx mockConf).response
      = choiceIdx MOCK_patient_chat mockIdx := rfl
  rw [h]
  exact choiceIdx_mem _ (by simp [MOCK_patient_chat]) _

/-- C8 fails on the code for video: the mock `/create-video-summary`
response always has `duration = 60`, regardless of the script, so the
duration is not derived from the input text length (here the script has
length 59, and 60 ≠ 59 × 0.1). -/
theorem video_duration_not_text_derived :
    (create_video_summary false false .failed false false "" "d" "t" "A" "B" 0).duration = 60 ∧
    (create_video_summary false false .failed false false "" "d" "t" "A" "B" 0).script.length
      = 59 ∧
    (create_video_summary false false .failed false false "" "d" "t" "A" "B" 0).duration ≠
      ((create_video_summary false false .failed false false "" "d" "t" "A" "B" 0).script.length
        : ℚ) * (1/10) := by
  refine ⟨rfl, by decide, ?_⟩
  have h : (create_video_summary false false .failed false false "" "d" "t" "A" "B" 0).script.length
      = 59 := by decide
  have h60 : (create_video_summary false false .failed false false "" "d" "t" "A" "B" 0).duration
      = 60 := rfl
  rw [h60, h]
  norm_num

/-- C8 as amended: every `/generate-tts` response (mock or real) reports
`duration = 0.1 × len(text)`, proportional to the input text length,
while every `/create-video-summary` response reports the constant
`duration = 60`, independent of the script length. -/
theorem durations_of_tts_and_video (useReal hasKey ttsOk : Bool) (text voice_id : String)
    (urlId : ℕ) (cc tc tavusOk : Bool) (claude : ProviderOutcome)
    (tavusUrl d tp pn dn : String) (urlId2 : ℕ) :
    (generate_tts useReal hasKey ttsOk text voice_id urlId).duration
      = (text.length : ℚ) * (1/10) ∧
    (create_video_summary useReal cc claude tc tavusOk tavusUrl d tp pn dn urlId2).duration
      = 60 := by
  constructor
  · cases useReal <;> cases hasKey <;> cases ttsOk <;> rfl
  · cases useReal <;> cases tc <;> cases tavusOk <;> rfl

/-- The conservative suggested-actions list of `/chat`. -/
def conservativeActions : List String :=
  ["Consult healthcare provider", "Monitor closely", "Seek immediate care if symptoms worsen"]

/-- C10: the `/chat` response has `requires_escalation = true` exactly
when its confidence is below 0.8, while the conservative
suggested-actions list is returned exactly when the confidence is at
most 0.8; hence at confidence exactly 0.8 (reachable in the mock branch,
whose confidence is drawn uniformly from [0.7, 0.85]) the handler
reports `requires_escalation = false` yet returns the
escalation-oriented actions. -/
theorem chat_escalation_thresholds (useReal configured : Bool) (claude : ProviderOutcome)
    (mockIdx : ℕ) (mockConf : ℚ) :
    ((patient_chat useReal configured claude mockIdx mockConf).requires_escalation = true ↔
      (patient_chat useReal configured claude mockIdx mockConf).confidence < 4/5) ∧
    ((patient_chat useReal configured claude mockIdx mockConf).suggested_actions
        = conservativeActions ↔
      (patient_chat useReal configured claude mockIdx mockConf).confidence ≤ 4/5) ∧
    (patient_chat false false claude mockIdx (4/5)).requires_escalation = false ∧
    (patient_chat false false claude mockIdx (4/5)).suggested_actions
      = conservativeActions := by
  have hne : ["Monitor symptoms", "Stay hydrated", "Rest as needed"] ≠ conservativeActions := by
    decide
  refine ⟨?_, ?_, ?_, ?_⟩
  · have h : (patient_chat useReal configured claude mockIdx mockConf).requires_escalation
        = decide ((patient_chat useReal configured claude mockIdx mockConf).confidence < 4/5) :=
      rfl
    rw [h]
    exact decide_eq_true_iff
  · have h : (patient_chat useReal configured claude mockIdx mockConf).suggested_actions
        = (if (patient_chat useReal configured claude mockIdx mockConf).confidence > 4/5 then
            ["Monitor symptoms", "Stay hydrated", "Rest as needed"]
          else conservativeActions) := rfl
    rw [h]
    by_cases hc : (patient_chat useReal configured claude mockIdx mockConf).confidence > 4/5
    · rw [if_pos hc]
      constructor
      · intro hl
        exact absurd hl hne
      · intro hle
        exact absurd hc (not_lt.mpr hle)
    · rw [if_neg hc]
      exact ⟨fun _ => not_lt.mp hc, fun _ => rfl⟩
  · have h : (patient_chat false false claude mockIdx (4/5)).requires_escalation
        = decide ((4/5 : ℚ) < 4/5) := rfl
    rw [h]
    exact decide_eq_false (lt_irrefl _)
  · have h : (patient_chat false false claude mockIdx (4/5)).suggested_actions
        = (if (4/5 : ℚ) > 4/5 then ["Monitor symptoms", "Stay hydrated", "Rest as needed"]
          else conservativeActions) := rfl
    rw [h]
    exact if_neg (lt_irrefl _)

end VirtualDoc
